import Mathlib

/-!
# Verification of the RideInBls booking–payment workflow

A shallow embedding of the core booking/payment routes of the
`backend-rideinbls` repository:

* `src/routes/paymentRoutes.js` — `POST /create-order`, `POST /verify`,
  `POST /cancel-by-vehicle/:bookingCode`;
* `src/routes/googleRoutes.js` — `POST /create-order`, `POST /verify`,
  `POST /distance-calculate`;
* the Mongoose models `Vehicle` and `BookingPayment`.

Conventions of the embedding:

* JS `Date` instants are modelled as `Int` milliseconds since the epoch
  (`Date` subtraction and comparison in the source is exactly integer
  millisecond arithmetic).
* JS numbers holding money are modelled as `ℚ`.
* External collaborators are function parameters of an environment record:
  HMAC-SHA256 with the server secret (`crypto.createHmac`), Razorpay
  (`orders.create`, `orders.fetch`, `payments.refund`), Nodemailer
  (`transporter.sendMail`, modelled by a Bool saying whether the send
  succeeds), JS date parsing (`new Date(string)`, `none` for `NaN`) and
  `getFullYear`.
* The MongoDB database is an explicit state: a list of vehicles and a list
  of booking/payment rows; `findOne` is `List.find?`; a `session.withTransaction`
  whose callback throws leaves the state unchanged (all-or-nothing).
* Each handler becomes a total function from an environment, a database
  state and a request to a result record carrying the HTTP outcome, the
  post-state and observation flags (provider calls made, emails attempted).
-/

namespace RideInBls

/-- JS `Date` instant, in milliseconds since the epoch. -/
abbrev Time := Int

/-- JS `String.prototype.trim` on the character list of a string:
strip leading and trailing whitespace. -/
def trimChars (s : List Char) : List Char :=
  ((s.dropWhile Char.isWhitespace).reverse.dropWhile Char.isWhitespace).reverse

/-- JS `s.trim()` (structural embedding of `String.trim`, which the source
uses on booking codes and route endpoints). -/
def jsTrim (s : String) : String := ⟨trimChars s.data⟩

/-- JS `req.user.name || req.user.email` (empty string is falsy). -/
def displayName (name email : String) : String :=
  if name = "" then email else name

/-- A document of the `Vehicle` collection (`models/Vehicle.js`): the
availability flags, the booking pointer and the per-kilometer rate. -/
structure Vehicle where
  vid : String
  name : String
  available : Bool
  isAvailable : Bool
  isBooked : Bool
  bookedBy : Option String
  bookedByName : Option String
  pricePerKM : Option ℚ
  deriving Repr, DecidableEq

/-- The embedded `payment` sub-document of a `BookingPayment` row. -/
structure PaymentSub where
  provider : String
  providerPaymentId : String
  orderId : String
  amount : ℚ
  currency : String
  status : String
  bookedByName : String
  isRefunded : Bool
  refundId : Option String
  failureReason : Option String
  deriving Repr, DecidableEq

/-- A document of the `BookingPayment` collection (`models/BookingPayment.js`).
`endDate` is `none` for immediate bookings (stored as `null`). -/
structure Reservation where
  user : String
  vehicle : String
  origin : String
  destination : String
  startDate : Time
  endDate : Option Time
  isRoundTrip : Bool
  totalPrice : ℚ
  bookingCode : String
  bookingType : String
  payment : PaymentSub
  paymentStatus : String
  status : String
  bookingStatus : String
  createdAt : Time
  deriving Repr, DecidableEq

/-- The database state: the `Vehicle` and `BookingPayment` collections. -/
structure Db where
  vehicles : List Vehicle
  bookings : List Reservation
  deriving Repr, DecidableEq

/-- The filter `status: { $in: ['Pending', 'Confirmed'] }` used by every
conflict query. -/
def isActiveStatus (b : Reservation) : Bool :=
  b.status = "Pending" || b.status = "Confirmed"

/-- Mongo `endDate: { $gte: t }` on a row: a `null` `endDate` does not match
a `$gte` comparison against a date. -/
def endDateGe (b : Reservation) (t : Time) : Bool :=
  match b.endDate with
  | some e => decide (t ≤ e)
  | none => false

/-- Mongo `endDate: { $lte: t }` on a row: a `null` `endDate` does not match
a `$lte` comparison against a date. -/
def endDateLe (b : Reservation) (t : Time) : Bool :=
  match b.endDate with
  | some e => decide (e ≤ t)
  | none => false

/-- The three-clause `$or` conflict filter of the `create-order` handlers
(`paymentRoutes.js` lines 134–151, `googleRoutes.js` lines 713–730):
an existing row conflicts with the window `[ns, ne]` when it matches
`{startDate ≤ ns, endDate ≥ ns}`, `{startDate ≤ ne, endDate ≥ ne}` or
`{startDate ≥ ns, endDate ≤ ne}`. -/
def initiationConflictMatch (vehicleId : String) (ns ne : Time) (b : Reservation) : Bool :=
  b.vehicle = vehicleId && isActiveStatus b &&
    ((decide (b.startDate ≤ ns) && endDateGe b ns) ||
     (decide (b.startDate ≤ ne) && endDateGe b ne) ||
     (decide (ns ≤ b.startDate) && endDateLe b ne))

/-- The two-clause `$or` conflict filter that the `verify` handlers re-run
inside the transaction (`paymentRoutes.js` lines 274–287, `googleRoutes.js`
lines 855–868): only `{startDate ≤ ns, endDate ≥ ns}` and
`{startDate ≤ ne, endDate ≥ ne}` — the third (containment) clause of the
initiation-time filter is absent. -/
def verifyConflictMatch (vehicleId : String) (ns ne : Time) (b : Reservation) : Bool :=
  b.vehicle = vehicleId && isActiveStatus b &&
    ((decide (b.startDate ≤ ns) && endDateGe b ns) ||
     (decide (b.startDate ≤ ne) && endDateGe b ne))

/-- The spec's closed-interval overlap test
`existing.start <= new.end AND existing.end >= new.start`
(inclusive boundaries). Stated from the spec, for comparison with the
code's conflict filters. -/
def specOverlap (es ee ns ne : Time) : Bool :=
  decide (es ≤ ne) && decide (ns ≤ ee)

/-- The booking parameters embedded in the Razorpay order's `notes` by
`create-order` and read back by `verify` (`orderDetails.notes`). The ISO
date strings are modelled by their parsed instants; `none` is a `null`
note. -/
structure OrderNotes where
  vehicleId : String
  userId : String
  origin : String
  destination : String
  startDate : Option Time
  endDate : Option Time
  isRoundTrip : Bool
  bookingType : String
  bookingCode : String
  deriving Repr, DecidableEq

/-- A Razorpay order as returned by `razorpay.orders.create` /
`razorpay.orders.fetch`: id, amount in paise, receipt and metadata. -/
structure ProviderOrder where
  oid : String
  amount : ℚ
  currency : String
  receipt : String
  notes : OrderNotes
  deriving Repr, DecidableEq

/-- The authenticated caller placed on `req.user` by `authMiddleware`. -/
structure ReqUser where
  uid : String
  name : String
  email : String
  deriving Repr, DecidableEq

/-- Environment of the `POST /verify` handler: the HMAC of the server
secret over a payload, the Razorpay order lookup, the caller, the current
instant, and whether the Nodemailer send succeeds. -/
structure VerifyEnv where
  hmacSig : String → String
  fetchOrder : String → Option ProviderOrder
  reqUser : ReqUser
  now : Time
  emailDelivers : Bool

/-- Body of a `POST /verify` request. -/
structure VerifyRequest where
  razorpay_payment_id : String
  razorpay_order_id : String
  razorpay_signature : String
  deriving Repr, DecidableEq

/-- The error responses of the `verify` handler, in source order. -/
inductive VerifyError where
  | missingDetails
  | signatureInvalid
  | orderNotFound
  | unauthorized
  | bookingExistsUnpaid
  | vehicleNotFound
  | vehicleUnavailable
  | schedulingConflict
  deriving Repr, DecidableEq

instance {ε α : Type} [DecidableEq ε] [DecidableEq α] : DecidableEq (Except ε α) := fun
  | .ok a, .ok b =>
      match decEq a b with
      | isTrue h => isTrue (by rw [h])
      | isFalse h => isFalse (by intro c; cases c; exact h rfl)
  | .ok _, .error _ => isFalse (by intro h; cases h)
  | .error _, .ok _ => isFalse (by intro h; cases h)
  | .error a, .error b =>
      match decEq a b with
      | isTrue h => isTrue (by rw [h])
      | isFalse h => isFalse (by intro c; cases c; exact h rfl)

/-- Result of the `verify` handler: HTTP outcome, post-state, and whether
the confirmation email was attempted and delivered. -/
structure VerifyResult where
  outcome : Except VerifyError Reservation
  db : Db
  confirmationEmailDelivered : Bool
  deriving Repr, DecidableEq

/-- `true` on the success (HTTP 200) outcome. -/
def exceptIsOk {ε α : Type} (r : Except ε α) : Bool :=
  match r with
  | .ok _ => true
  | .error _ => false

/-- The `BookingPayment.create` document built by `verify` after the
in-transaction checks pass (`paymentRoutes.js` lines 295–318,
`googleRoutes.js` lines 876–899). -/
def mkVerifiedBooking (env : VerifyEnv) (req : VerifyRequest) (od : ProviderOrder) :
    Reservation :=
  { user := env.reqUser.uid
    vehicle := od.notes.vehicleId
    origin := od.notes.origin
    destination := od.notes.destination
    startDate := od.notes.startDate.getD env.now
    endDate := od.notes.endDate
    isRoundTrip := od.notes.isRoundTrip
    totalPrice := od.amount / 100
    bookingCode := od.notes.bookingCode
    bookingType := od.notes.bookingType
    payment :=
      { provider := "razorpay"
        providerPaymentId := req.razorpay_payment_id
        orderId := req.razorpay_order_id
        amount := od.amount / 100
        currency := "INR"
        status := "paid"
        bookedByName := displayName env.reqUser.name env.reqUser.email
        isRefunded := false
        refundId := none
        failureReason := none }
    paymentStatus := "Paid"
    status := "Confirmed"
    bookingStatus := "Confirmed"
    createdAt := env.now }

/-- The vehicle mutation `verify` performs for immediate bookings
(`paymentRoutes.js` lines 321–328). -/
def bookVehicle (env : VerifyEnv) (v : Vehicle) : Vehicle :=
  { v with
    isAvailable := false
    available := false
    isBooked := true
    bookedBy := some env.reqUser.uid
    bookedByName := some (displayName env.reqUser.name env.reqUser.email) }

/-- The `POST /verify` handler. The handlers in `paymentRoutes.js`
(lines 207–420) and `googleRoutes.js` (lines 788–1001) are line-for-line
identical in everything modelled here, so one function embeds both.

Steps, in source order: presence check of the three body fields (empty is
falsy), HMAC-SHA256 signature over `orderId|paymentId`, Razorpay order
fetch, ownership check of `notes.userId`, then the transaction: idempotency
lookup by `bookingCode`, vehicle existence/availability re-check, the
two-clause scheduled-conflict re-check, `BookingPayment.create`, and the
vehicle flag flip for immediate bookings. A thrown error aborts the
transaction, leaving the state unchanged. The confirmation email is sent
after the transaction in its own try/catch, so its failure does not change
the outcome. In the conflict query the source writes
`new Date(startDate)` on the note value, and `new Date(null)` is the epoch,
so a missing note date enters the query as instant `0` (`Option.getD _ 0`). -/
def verifyPayment (env : VerifyEnv) (db : Db) (req : VerifyRequest) : VerifyResult :=
  if req.razorpay_payment_id = "" || req.razorpay_order_id = "" ||
      req.razorpay_signature = "" then
    ⟨.error .missingDetails, db, false⟩
  else if env.hmacSig (req.razorpay_order_id ++ "|" ++ req.razorpay_payment_id) ≠
      req.razorpay_signature then
    ⟨.error .signatureInvalid, db, false⟩
  else
    match env.fetchOrder req.razorpay_order_id with
    | none => ⟨.error .orderNotFound, db, false⟩
    | some od =>
      if od.notes.userId ≠ env.reqUser.uid then
        ⟨.error .unauthorized, db, false⟩
      else
        match db.bookings.find? (fun b => b.bookingCode = od.notes.bookingCode) with
        | some existing =>
          if existing.payment.status = "paid" then
            ⟨.ok existing, db, env.emailDelivers⟩
          else
            ⟨.error .bookingExistsUnpaid, db, false⟩
        | none =>
          match db.vehicles.find? (fun v => v.vid = od.notes.vehicleId) with
          | none => ⟨.error .vehicleNotFound, db, false⟩
          | some vehicle =>
            if !vehicle.isAvailable && !vehicle.available then
              ⟨.error .vehicleUnavailable, db, false⟩
            else if od.notes.bookingType = "scheduled" &&
                (db.bookings.find? (verifyConflictMatch od.notes.vehicleId
                  (od.notes.startDate.getD 0) (od.notes.endDate.getD 0))).isSome then
              ⟨.error .schedulingConflict, db, false⟩
            else
              let newBooking := mkVerifiedBooking env req od
              let vehicles' :=
                if od.notes.bookingType = "immediate" then
                  db.vehicles.map (fun v =>
                    if v.vid = od.notes.vehicleId then bookVehicle env v else v)
                else
                  db.vehicles
              ⟨.ok newBooking, ⟨vehicles', db.bookings ++ [newBooking]⟩,
                env.emailDelivers⟩

/-- Environment of the `create-order` handlers: the caller, the current
instant, JS date parsing (`new Date(string)`, `none` for an invalid date),
`getFullYear` of an instant, `mongoose.Types.ObjectId.isValid`, the
generated booking code and the order id Razorpay assigns. -/
structure CreateOrderEnv where
  reqUser : ReqUser
  now : Time
  parseDate : String → Option Time
  yearOf : Time → Int
  isValidObjectId : String → Bool
  freshBookingCode : String
  newOrderId : String

/-- Body of a `POST /create-order` request. `startDate`/`endDate` are the
raw strings of the JSON body (`none` for an absent field). -/
structure CreateOrderRequest where
  vehicleId : String
  amount : ℚ
  origin : String
  destination : String
  startDate : Option String
  endDate : Option String
  isRoundTrip : Bool

/-- The error responses of the `create-order` handlers, in source order. -/
inductive CreateOrderError where
  | invalidVehicleId
  | invalidAmount
  | missingRoute
  | invalidDateFormat
  | badYear
  | startTooSoon
  | endNotAfterStart
  | durationTooShort
  | durationTooLong
  | oneDateOnly
  | vehicleNotFound
  | vehicleUnavailable
  | schedulingConflict
  deriving Repr, DecidableEq

/-- The truthiness test
`startDate && startDate.trim() !== "" && startDate !== "null" && startDate !== "undefined"`
shared by both `create-order` handlers. -/
def hasDateField : Option String → Bool
  | none => false
  | some s => !(s = "") && !(jsTrim s = "") && !(s = "null") && !(s = "undefined")

/-- Date processing of `paymentRoutes.js` `create-order` (lines 62–120):
both fields absent means an immediate booking starting now; both present
are parsed and must satisfy, in order: a valid parse, years ≥ 2020, a
start at least 5 minutes in the future, end after start, a duration of at
least 1 hour and at most 720 hours; exactly one present is an error.
Returns `(processedStartDate, processedEndDate, bookingType)`. -/
def processDatesPayment (env : CreateOrderEnv) (sd ed : Option String) :
    Except CreateOrderError (Option Time × Option Time × String) :=
  if !(hasDateField sd) && !(hasDateField ed) then
    .ok (some env.now, none, "immediate")
  else if hasDateField sd && hasDateField ed then
    match env.parseDate (sd.getD ""), env.parseDate (ed.getD "") with
    | some st, some en =>
      if env.yearOf st < 2020 || env.yearOf en < 2020 then
        .error .badYear
      else if st < env.now + 5 * 60 * 1000 then
        .error .startTooSoon
      else if en ≤ st then
        .error .endNotAfterStart
      else if ((en - st : Int) : ℚ) / (1000 * 60 * 60) < 1 then
        .error .durationTooShort
      else if ((en - st : Int) : ℚ) / (1000 * 60 * 60) > 720 then
        .error .durationTooLong
      else
        .ok (some st, some en, "scheduled")
    | _, _ => .error .invalidDateFormat
  else
    .error .oneDateOnly

/-- Date processing of `googleRoutes.js` `create-order` (lines 664–699):
same shape, but after a valid parse the only check is that the end is
after the start — no year floor, no 5-minute buffer, no duration bounds. -/
def processDatesGoogle (env : CreateOrderEnv) (sd ed : Option String) :
    Except CreateOrderError (Option Time × Option Time × String) :=
  if !(hasDateField sd) && !(hasDateField ed) then
    .ok (some env.now, none, "immediate")
  else if hasDateField sd && hasDateField ed then
    match env.parseDate (sd.getD ""), env.parseDate (ed.getD "") with
    | some st, some en =>
      if en ≤ st then
        .error .endNotAfterStart
      else
        .ok (some st, some en, "scheduled")
    | _, _ => .error .invalidDateFormat
  else
    .error .oneDateOnly

/-- The success payload of `create-order`: Razorpay order id, amount in
paise (`Math.round(amount * 100)`), booking code and booking type. -/
structure CreateOrderResp where
  orderId : String
  amountPaise : Int
  bookingCode : String
  bookingType : String
  deriving Repr, DecidableEq

/-- Result of a `create-order` handler: HTTP outcome, post-state, and the
Razorpay orders opened during the call. -/
structure CreateOrderResult where
  outcome : Except CreateOrderError CreateOrderResp
  db : Db
  createdOrders : List ProviderOrder
  deriving Repr, DecidableEq

/-- Tail shared verbatim by both `create-order` handlers
(`paymentRoutes.js` lines 122–196, `googleRoutes.js` lines 701–777):
vehicle existence and availability, the three-clause conflict query for
scheduled bookings, then `razorpay.orders.create` with the booking
parameters as `notes` and the booking code as `receipt`. No database
write happens anywhere in this handler. -/
def finishCreateOrder (env : CreateOrderEnv) (db : Db) (req : CreateOrderRequest)
    (ps pe : Option Time) (bt : String) : CreateOrderResult :=
  match db.vehicles.find? (fun v => v.vid = req.vehicleId) with
  | none => ⟨.error .vehicleNotFound, db, []⟩
  | some vehicle =>
    if !vehicle.isAvailable && !vehicle.available then
      ⟨.error .vehicleUnavailable, db, []⟩
    else if bt = "scheduled" &&
        (db.bookings.find? (initiationConflictMatch req.vehicleId
          (ps.getD 0) (pe.getD 0))).isSome then
      ⟨.error .schedulingConflict, db, []⟩
    else
      let amountPaise : Int := round (req.amount * 100)
      let order : ProviderOrder :=
        { oid := env.newOrderId
          amount := (amountPaise : ℚ)
          currency := "INR"
          receipt := env.freshBookingCode
          notes :=
            { vehicleId := req.vehicleId
              userId := env.reqUser.uid
              origin := jsTrim req.origin
              destination := jsTrim req.destination
              startDate := ps
              endDate := pe
              isRoundTrip := req.isRoundTrip
              bookingType := bt
              bookingCode := env.freshBookingCode } }
      ⟨.ok { orderId := env.newOrderId
             amountPaise := amountPaise
             bookingCode := env.freshBookingCode
             bookingType := bt },
        db, [order]⟩

/-- The `POST /create-order` handler of `paymentRoutes.js` (lines 47–202):
ObjectId validity, `amount > 0`, non-empty origin and destination, the
strict date processing, then the shared tail. -/
def createOrderPayment (env : CreateOrderEnv) (db : Db) (req : CreateOrderRequest) :
    CreateOrderResult :=
  if !(env.isValidObjectId req.vehicleId) then
    ⟨.error .invalidVehicleId, db, []⟩
  else if req.amount ≤ 0 then
    ⟨.error .invalidAmount, db, []⟩
  else if req.origin = "" || req.destination = "" then
    ⟨.error .missingRoute, db, []⟩
  else
    match processDatesPayment env req.startDate req.endDate with
    | .error e => ⟨.error e, db, []⟩
    | .ok (ps, pe, bt) => finishCreateOrder env db req ps pe bt

/-- The `POST /create-order` handler of `googleRoutes.js` (lines 650–783):
identical to `createOrderPayment` except for the laxer date processing. -/
def createOrderGoogle (env : CreateOrderEnv) (db : Db) (req : CreateOrderRequest) :
    CreateOrderResult :=
  if !(env.isValidObjectId req.vehicleId) then
    ⟨.error .invalidVehicleId, db, []⟩
  else if req.amount ≤ 0 then
    ⟨.error .invalidAmount, db, []⟩
  else if req.origin = "" || req.destination = "" then
    ⟨.error .missingRoute, db, []⟩
  else
    match processDatesGoogle env req.startDate req.endDate with
    | .error e => ⟨.error e, db, []⟩
    | .ok (ps, pe, bt) => finishCreateOrder env db req ps pe bt

/-- Environment of the `cancel-by-vehicle/:bookingCode` handler: the
caller, the current instant, the Razorpay refund call (`some refundId`
when `razorpay.payments.refund` succeeds, `none` when it throws), and
whether each of the two email sends succeeds. -/
structure CancelEnv where
  reqUser : ReqUser
  now : Time
  refundCall : Option String
  refundEmailDelivers : Bool
  cancelEmailDelivers : Bool

/-- The error responses of the cancel handler, in source order. -/
inductive CancelError where
  | missingCode
  | notFound
  | alreadyCancelled
  | refundFailed
  deriving Repr, DecidableEq

/-- Result of the cancel handler: HTTP outcome, post-state, whether the
Razorpay refund API was invoked, whether the provider actually executed a
refund, and whether the final cancellation email was delivered. -/
structure CancelResult where
  outcome : Except CancelError Reservation
  db : Db
  refundAttempted : Bool
  providerRefunded : Bool
  cancellationEmailDelivered : Bool
  deriving Repr, DecidableEq

/-- The `BookingPayment.findOne` filter of the cancel handler
(`paymentRoutes.js` lines 431–436): the trimmed booking code, the caller
as owner, `payment.status = "paid"` and
`bookingStatus ∈ {Pending, Confirmed}`. -/
def cancelLookupMatch (env : CancelEnv) (code : String) (b : Reservation) : Bool :=
  b.bookingCode = jsTrim code && b.user = env.reqUser.uid &&
    b.payment.status = "paid" &&
    (b.bookingStatus = "Pending" || b.bookingStatus = "Confirmed")

/-- `hoursDiff = (now - createdAt) / (1000 * 60 * 60)` of the cancel
handler (line 447). -/
def hoursSince (env : CancelEnv) (createdAt : Time) : ℚ :=
  ((env.now - createdAt : Int) : ℚ) / (1000 * 60 * 60)

/-- The vehicle release of the cancel handler (lines 564–572). -/
def releaseVehicle (v : Vehicle) : Vehicle :=
  { v with
    isAvailable := true
    available := true
    isBooked := false
    bookedBy := none
    bookedByName := none }

/-- Persistence tail of the cancel handler (lines 563–580): release the
populated vehicle if there is one, set `bookingStatus`/`status` to
`Cancelled`, overwrite `paymentStatus` with `"No Refund"` when no refund
info exists, and save. `bp` is the row as loaded (used for the lookups),
`bp1` the row with the in-memory refund-branch mutations applied. -/
def persistCancellation (env : CancelEnv) (db : Db) (bp bp1 : Reservation)
    (refundInfoPresent refundAttempted : Bool) : CancelResult :=
  let vehicles' :=
    if (db.vehicles.find? (fun v => v.vid = bp.vehicle)).isSome then
      db.vehicles.map (fun v => if v.vid = bp.vehicle then releaseVehicle v else v)
    else
      db.vehicles
  let bp2 := { bp1 with
    bookingStatus := "Cancelled"
    status := "Cancelled"
    paymentStatus := if refundInfoPresent then bp1.paymentStatus else "No Refund" }
  let bookings' :=
    db.bookings.map (fun b => if b.bookingCode = bp.bookingCode then bp2 else b)
  ⟨.ok bp2, ⟨vehicles', bookings'⟩, refundAttempted, refundInfoPresent,
    env.cancelEmailDelivers⟩

/-- The `POST /cancel-by-vehicle/:bookingCode` handler of
`paymentRoutes.js` (lines 425–692).

Flow: lookup by the `cancelLookupMatch` filter, the (unreachable, given
that filter) already-cancelled guard, then: if
`hoursDiff <= 24` the Razorpay refund is attempted — a throwing refund
call is caught and answered with a hard 500 `Refund failed` with nothing
persisted; on a successful refund the row is mutated in memory and the
refund-success email is sent *inside the same try block*, so a throwing
email send is also caught by the refund catch and likewise aborts the
whole cancellation with nothing persisted (although the provider refund
has already happened). Past 24 hours no provider call is made and a
failure reason is recorded in memory. Either surviving branch then
persists the cancellation: vehicle release, `Cancelled` statuses,
`"No Refund"` when no refund info exists. The final cancellation email
has its own try/catch and never affects the outcome. -/
def cancelByCode (env : CancelEnv) (db : Db) (code : String) : CancelResult :=
  if code = "" then
    ⟨.error .missingCode, db, false, false, false⟩
  else
    match db.bookings.find? (cancelLookupMatch env code) with
    | none => ⟨.error .notFound, db, false, false, false⟩
    | some bp =>
      if bp.bookingStatus = "Cancelled" then
        ⟨.error .alreadyCancelled, db, false, false, false⟩
      else if hoursSince env bp.createdAt ≤ 24 then
        match env.refundCall with
        | none => ⟨.error .refundFailed, db, true, false, false⟩
        | some rid =>
          let bp1 := { bp with
            payment := { bp.payment with isRefunded := true, refundId := some rid }
            paymentStatus := "Refunded" }
          if !env.refundEmailDelivers then
            ⟨.error .refundFailed, db, true, true, false⟩
          else
            persistCancellation env db bp bp1 true true
      else
        let bp1 := { bp with
          payment := { bp.payment with
            failureReason := some "Cancellation after 24h, no refund available" } }
        persistCancellation env db bp bp1 false false

/-- A vehicle as fed into the quote pipeline of
`POST /distance-calculate` (`googleRoutes.js`): only the fields the
pricing map/filter/sort reads. -/
structure QuoteVehicle where
  vid : String
  pricePerKM : Option ℚ
  deriving Repr, DecidableEq

/-- One entry of `vehiclesWithPrice`: the vehicle with its computed
`totalPrice` (`null` when the rate is falsy). -/
structure QuotedVehicle where
  vid : String
  pricePerKM : Option ℚ
  totalPrice : Option ℚ
  deriving Repr, DecidableEq

/-- `parseFloat(x.toFixed(2))`: round to two decimals, ties toward the
larger value, exactly JS `toFixed` on exact arithmetic. -/
def roundTo2 (x : ℚ) : ℚ := (round (x * 100) : Int) / 100

/-- One step of the `vehicles.map` of `distance-calculate`
(`googleRoutes.js` lines 243–310):
`totalPrice = vehicle.pricePerKM ? parseFloat((distanceInKm * vehicle.pricePerKM).toFixed(2)) : null`
(`null` and `0` are both falsy). -/
def quoteOne (distanceInKm : ℚ) (v : QuoteVehicle) : QuotedVehicle :=
  { vid := v.vid
    pricePerKM := v.pricePerKM
    totalPrice :=
      match v.pricePerKM with
      | some r => if r = 0 then none else some (roundTo2 (distanceInKm * r))
      | none => none }

/-- `validVehicles`: the map composed with the filter
`v.totalPrice !== null && v.totalPrice > 0` (lines 243–313). -/
def quoteValid (d : ℚ) (vs : List QuoteVehicle) : List QuotedVehicle :=
  (vs.map (quoteOne d)).filter (fun v =>
    match v.totalPrice with
    | some p => decide (0 < p)
    | none => false)

/-- The sort key: a kept entry always has `some` price, `getD` only
names the comparator's numeric read. -/
def quoteKey (v : QuotedVehicle) : ℚ := v.totalPrice.getD 0

/-- The comparator `(a, b) => a.totalPrice - b.totalPrice` as the ordering
it sorts by. -/
def priceLE (a b : QuotedVehicle) : Prop := quoteKey a ≤ quoteKey b

instance : DecidableRel priceLE := fun a b =>
  inferInstanceAs (Decidable (quoteKey a ≤ quoteKey b))

instance : IsTotal QuotedVehicle priceLE := ⟨fun a b => le_total (quoteKey a) (quoteKey b)⟩

instance : IsTrans QuotedVehicle priceLE := ⟨fun _ _ _ => le_trans⟩

/-- The full quote pipeline of `distance-calculate`
(lines 243–316): map, filter, then
`validVehicles.sort((a, b) => a.totalPrice - b.totalPrice)`.
`Array.prototype.sort` is stable, so the sort is embedded as a stable
insertion sort by the comparator's ordering. -/
def quotePipeline (d : ℚ) (vs : List QuoteVehicle) : List QuotedVehicle :=
  List.insertionSort priceLE (quoteValid d vs)

/-! ## Observations used by the theorems -/

/-- Two distinct active (`Pending`/`Confirmed`) reservations on the same
vehicle whose `[startDate, endDate]` windows overlap under the spec's
inclusive test exist in the store. -/
def doubleBookedOn (db : Db) (vid : String) : Bool :=
  let act := db.bookings.filter (fun b => b.vehicle = vid && isActiveStatus b)
  act.any (fun b1 => act.any (fun b2 =>
    b1.bookingCode ≠ b2.bookingCode &&
    (match b1.endDate, b2.endDate with
     | some e1, some e2 => specOverlap b1.startDate e1 b2.startDate e2
     | _, _ => false)))

/-! ## C1 — the in-transaction conflict re-check of `verify`

Fixture: vehicle `v1` carries a Confirmed scheduled reservation over
`[200, 300]`; a payment callback verifies a new scheduled booking over
`[100, 400]` on the same vehicle. The spec's inclusive overlap test flags
the pair (`200 ≤ 400` and `100 ≤ 300`), and the three-clause
initiation-time filter of the very same files matches the existing row,
but the two-clause filter re-run inside the `verify` transaction matches
nothing (`200 ≤ 100` fails and `300 ≥ 400` fails), so verification
succeeds and creates a second overlapping Confirmed reservation. -/

def c1Existing : Reservation :=
  { user := "u2"
    vehicle := "v1"
    origin := "A"
    destination := "B"
    startDate := 200
    endDate := some 300
    isRoundTrip := false
    totalPrice := 250
    bookingCode := "BLSOLD"
    bookingType := "scheduled"
    payment :=
      { provider := "razorpay"
        providerPaymentId := "pay_old"
        orderId := "order_old"
        amount := 250
        currency := "INR"
        status := "paid"
        bookedByName := "U2"
        isRefunded := false
        refundId := none
        failureReason := none }
    paymentStatus := "Paid"
    status := "Confirmed"
    bookingStatus := "Confirmed"
    createdAt := 0 }

def c1Vehicle : Vehicle :=
  { vid := "v1"
    name := "Car"
    available := true
    isAvailable := true
    isBooked := false
    bookedBy := none
    bookedByName := none
    pricePerKM := some 10 }

def c1Order : ProviderOrder :=
  { oid := "order_new"
    amount := 25000
    currency := "INR"
    receipt := "BLSNEW"
    notes :=
      { vehicleId := "v1"
        userId := "u1"
        origin := "A"
        destination := "B"
        startDate := some 100
        endDate := some 400
        isRoundTrip := false
        bookingType := "scheduled"
        bookingCode := "BLSNEW" } }

def c1Env : VerifyEnv :=
  { hmacSig := fun s => "sig:" ++ s
    fetchOrder := fun o => if o = "order_new" then some c1Order else none
    reqUser := ⟨"u1", "User One", "u1@x"⟩
    now := 50
    emailDelivers := true }

def c1Db : Db := ⟨[c1Vehicle], [c1Existing]⟩

def c1Req : VerifyRequest := ⟨"pay_new", "order_new", "sig:order_new|pay_new"⟩

/-- **C1** (code bug). The conflict re-check inside the `verify`
transaction does **not** detect every existing Pending/Confirmed
reservation overlapping the new window under the spec's inclusive test:
its `$or` lacks the containment clause that the initiation-time check in
the same files has. At the fixture above, the spec's overlap test flags
the existing `[200, 300]` row against the new `[100, 400]` window and the
initiation-time filter matches it, yet the verify-time filter misses it,
verification succeeds, and the store ends with two overlapping active
reservations on the same vehicle — instead of the `SchedulingConflict`
failure the claim requires. -/
theorem verify_conflict_recheck_misses_contained_reservation :
    specOverlap c1Existing.startDate 300 100 400 = true ∧
    initiationConflictMatch "v1" 100 400 c1Existing = true ∧
    verifyConflictMatch "v1" 100 400 c1Existing = false ∧
    exceptIsOk (verifyPayment c1Env c1Db c1Req).outcome = true ∧
    ((verifyPayment c1Env c1Db c1Req).db.bookings.length = 2) ∧
    doubleBookedOn (verifyPayment c1Env c1Db c1Req).db "v1" = true := by
  decide

/-! ## C2 — idempotent replay of `verify` -/

/-- **C2** (confirmed). When a reservation for the order's `bookingCode`
already exists with `payment.status = "paid"`, a replay of `verifyPayment`
with the same valid `(orderId, paymentId, signature)` returns that
existing reservation and leaves the store untouched; iterating the replay
any number of times keeps the store fixed, and in particular the number
of Confirmed rows for that `bookingCode` never changes. -/
theorem verifyPayment_replay_idempotent
    (env : VerifyEnv) (db : Db) (req : VerifyRequest) (od : ProviderOrder)
    (b : Reservation)
    (hp : req.razorpay_payment_id ≠ "")
    (ho : req.razorpay_order_id ≠ "")
    (hs : req.razorpay_signature ≠ "")
    (hsig : env.hmacSig (req.razorpay_order_id ++ "|" ++ req.razorpay_payment_id) =
      req.razorpay_signature)
    (hfetch : env.fetchOrder req.razorpay_order_id = some od)
    (huser : od.notes.userId = env.reqUser.uid)
    (hfind : db.bookings.find? (fun x => x.bookingCode = od.notes.bookingCode) = some b)
    (hpaid : b.payment.status = "paid") :
    (verifyPayment env db req).outcome = .ok b ∧
    (verifyPayment env db req).db = db ∧
    (∀ n : ℕ, (fun st => (verifyPayment env st req).db)^[n] db = db) ∧
    ∀ n : ℕ,
      (((fun st => (verifyPayment env st req).db)^[n] db).bookings.filter
        (fun x => x.bookingCode = od.notes.bookingCode && x.status = "Confirmed")).length =
      (db.bookings.filter
        (fun x => x.bookingCode = od.notes.bookingCode && x.status = "Confirmed")).length := by
  have h1 : verifyPayment env db req = ⟨.ok b, db, env.emailDelivers⟩ := by
    simp [verifyPayment, hp, ho, hs, hsig, hfetch, huser, hfind, hpaid]
  have hfix : (fun st => (verifyPayment env st req).db) db = db := by
    simp [h1]
  refine ⟨by rw [h1], by rw [h1], fun n => Function.iterate_fixed hfix n, fun n => ?_⟩
  rw [Function.iterate_fixed hfix n]

def c2Booking : Reservation :=
  { user := "u1"
    vehicle := "v1"
    origin := "A"
    destination := "B"
    startDate := 100
    endDate := some 400
    isRoundTrip := false
    totalPrice := 250
    bookingCode := "BLSNEW"
    bookingType := "scheduled"
    payment :=
      { provider := "razorpay"
        providerPaymentId := "pay_new"
        orderId := "order_new"
        amount := 250
        currency := "INR"
        status := "paid"
        bookedByName := "User One"
        isRefunded := false
        refundId := none
        failureReason := none }
    paymentStatus := "Paid"
    status := "Confirmed"
    bookingStatus := "Confirmed"
    createdAt := 50 }

def c2Env : VerifyEnv :=
  { hmacSig := fun s => "sig:" ++ s
    fetchOrder := fun o => if o = "order_new" then some c1Order else none
    reqUser := ⟨"u1", "User One", "u1@x"⟩
    now := 60
    emailDelivers := true }

def c2Db : Db := ⟨[c1Vehicle], [c2Booking]⟩

/-- Witness for `verifyPayment_replay_idempotent` at a store already
holding the paid `BLSNEW` reservation. -/
theorem verifyPayment_replay_idempotent_witness :
    (verifyPayment c2Env c2Db c1Req).outcome = .ok c2Booking ∧
    (verifyPayment c2Env c2Db c1Req).db = c2Db := by
  have h := verifyPayment_replay_idempotent c2Env c2Db c1Req c1Order c2Booking
    (by decide) (by decide) (by decide) (by decide) (by decide) (by decide)
    (by decide) (by decide)
  exact ⟨h.1, h.2.1⟩

/-! ## C3 — the HMAC signature gate of `verify` -/

def c3Env : VerifyEnv :=
  { hmacSig := fun s => "H" ++ s
    fetchOrder := fun _ => none
    reqUser := ⟨"u1", "User One", "u1@x"⟩
    now := 0
    emailDelivers := true }

def c3Db : Db := ⟨[], []⟩

/-- **C3 counterexample.** The claim asserts that *every* input whose
signature differs from the recomputed HMAC fails with `SignatureInvalid`.
An input with an empty `razorpay_payment_id` and a wrong signature is
instead rejected one step earlier as `Missing payment details`
(`paymentRoutes.js` lines 211–212), a distinct response, so the claim as
universally stated is false. -/
theorem verify_empty_field_beats_signature_check :
    (⟨"", "o1", "x"⟩ : VerifyRequest).razorpay_signature ≠
      c3Env.hmacSig ("o1" ++ "|" ++ "") ∧
    (verifyPayment c3Env c3Db ⟨"", "o1", "x"⟩).outcome = .error .missingDetails ∧
    VerifyError.missingDetails ≠ VerifyError.signatureInvalid := by
  decide

/-- **C3 (amended).** `verifyPayment` accepts only if the supplied
signature equals `HMAC-SHA256(secret, orderId + "|" + paymentId)`; and for
every input whose three fields are present (non-empty) and whose signature
differs from that recomputed value it fails with `SignatureInvalid`,
leaving the store untouched — no reservation row is created and no
vehicle field is mutated. (Inputs with a missing field are rejected
earlier as `Missing payment details`, also without touching the store.) -/
theorem verify_rejects_bad_signature :
    (∀ (env : VerifyEnv) (db : Db) (req : VerifyRequest),
      req.razorpay_signature ≠
        env.hmacSig (req.razorpay_order_id ++ "|" ++ req.razorpay_payment_id) →
      exceptIsOk (verifyPayment env db req).outcome = false ∧
      (verifyPayment env db req).db = db) ∧
    ∀ (env : VerifyEnv) (db : Db) (req : VerifyRequest),
      req.razorpay_payment_id ≠ "" →
      req.razorpay_order_id ≠ "" →
      req.razorpay_signature ≠ "" →
      req.razorpay_signature ≠
        env.hmacSig (req.razorpay_order_id ++ "|" ++ req.razorpay_payment_id) →
      verifyPayment env db req = ⟨.error .signatureInvalid, db, false⟩ := by
  constructor
  · intro env db req hne
    by_cases hempty : req.razorpay_payment_id = "" ∨ req.razorpay_order_id = "" ∨
        req.razorpay_signature = ""
    · rcases hempty with h | h | h <;>
        simp [verifyPayment, h, exceptIsOk]
    · push_neg at hempty
      obtain ⟨hp, ho, hs⟩ := hempty
      simp [verifyPayment, hp, ho, hs, Ne.symm hne, exceptIsOk]
  · intro env db req hp ho hs hne
    simp [verifyPayment, hp, ho, hs, Ne.symm hne]

/-- Witness for `verify_rejects_bad_signature` at a concrete tampered
signature. -/
theorem verify_rejects_bad_signature_witness :
    verifyPayment c3Env c3Db ⟨"p1", "o1", "tampered"⟩ =
      ⟨.error .signatureInvalid, c3Db, false⟩ := by
  exact verify_rejects_bad_signature.2 c3Env c3Db ⟨"p1", "o1", "tampered"⟩
    (by decide) (by decide) (by decide) (by decide)

/-! ## Helper lemmas for the cancel handler -/

/-- The status of the post-cancellation row with the given code. -/
def bookingStatusOf (db : Db) (code : String) : Option (String × String) :=
  (db.bookings.find? (fun b => b.bookingCode = code)).map
    (fun b => (b.bookingStatus, b.status))

/-- The `paymentStatus` of the stored row with the given code. -/
def paymentStatusOf (db : Db) (code : String) : Option String :=
  (db.bookings.find? (fun b => b.bookingCode = code)).map (fun b => b.paymentStatus)

/-- Whether the stored row with the given code records a
`payment.failureReason`. -/
def failureReasonRecorded (db : Db) (code : String) : Bool :=
  match db.bookings.find? (fun b => b.bookingCode = code) with
  | some b => b.payment.failureReason.isSome
  | none => false

lemma cancelLookupMatch_fields {env : CancelEnv} {code : String} {bp : Reservation}
    (h : cancelLookupMatch env code bp = true) :
    bp.bookingCode = jsTrim code ∧ bp.user = env.reqUser.uid ∧
      bp.payment.status = "paid" ∧
      (bp.bookingStatus = "Pending" ∨ bp.bookingStatus = "Confirmed") := by
  simp only [cancelLookupMatch, Bool.and_eq_true, Bool.or_eq_true,
    decide_eq_true_eq] at h
  exact ⟨h.1.1.1, h.1.1.2, h.1.2, h.2⟩

lemma cancelLookup_not_cancelled {env : CancelEnv} {code : String} {bp : Reservation}
    (h : cancelLookupMatch env code bp = true) :
    ¬ bp.bookingStatus = "Cancelled" := by
  rcases (cancelLookupMatch_fields h).2.2.2 with h1 | h1 <;> simp [h1]

/-- Replacing, in place, every row carrying `code` by a row `bp2` that
still carries `code` makes the lookup by `code` return `bp2`, provided
some row carried `code` to begin with. -/
lemma find?_map_replace (code : String) (bp2 : Reservation)
    (h2 : bp2.bookingCode = code) :
    ∀ l : List Reservation, (l.find? (fun b => b.bookingCode = code)).isSome →
      (l.map (fun b => if b.bookingCode = code then bp2 else b)).find?
        (fun b => b.bookingCode = code) = some bp2 := by
  intro l
  induction l with
  | nil => simp
  | cons a l ih =>
    intro hsome
    by_cases ha : a.bookingCode = code
    · simp [List.find?_cons, ha, h2]
    · have hsome' : (l.find? (fun b => b.bookingCode = code)).isSome := by
        simpa [List.find?_cons, ha] using hsome
      simpa [List.find?_cons, ha] using ih hsome'

lemma persistCancellation_db (env : CancelEnv) (db : Db) (bp bp1 : Reservation)
    (ri ra : Bool)
    (hb1 : bp1.bookingCode = bp.bookingCode)
    (hbk : (db.bookings.find? (fun b => b.bookingCode = bp.bookingCode)).isSome) :
    bookingStatusOf (persistCancellation env db bp bp1 ri ra).db bp.bookingCode =
      some ("Cancelled", "Cancelled") ∧
    paymentStatusOf (persistCancellation env db bp bp1 ri ra).db bp.bookingCode =
      some (if ri then bp1.paymentStatus else "No Refund") ∧
    ∀ v ∈ (persistCancellation env db bp bp1 ri ra).db.vehicles,
      v.vid = bp.vehicle →
        v.isAvailable = true ∧ v.available = true ∧ v.isBooked = false ∧
          v.bookedBy = none ∧ v.bookedByName = none ∧
          (db.vehicles.find? (fun w => w.vid = bp.vehicle)).isSome := by
  have hfind := find?_map_replace bp.bookingCode
    { bp1 with
      bookingStatus := "Cancelled"
      status := "Cancelled"
      paymentStatus := if ri then bp1.paymentStatus else "No Refund" }
    (by simpa using hb1) db.bookings hbk
  refine ⟨?_, ?_, ?_⟩
  · simp [persistCancellation, bookingStatusOf, hfind]
  · simp [persistCancellation, paymentStatusOf, hfind]
  · intro v hv hvid
    by_cases hveh : (db.vehicles.find? (fun v => v.vid = bp.vehicle)).isSome
    · simp only [persistCancellation, hveh, if_true, List.mem_map] at hv
      obtain ⟨w, _, hw⟩ := hv
      by_cases hwv : w.vid = bp.vehicle
      · subst hw
        simp [hwv, releaseVehicle, hveh]
      · rw [← hw] at hvid
        simp [hwv] at hvid
    · simp only [persistCancellation, hveh, if_false] at hv
      exfalso
      apply hveh
      rw [List.find?_isSome]
      exact ⟨v, hv, by simpa using hvid⟩

lemma cancelByCode_refund_api_failure (env : CancelEnv) (db : Db) (code : String)
    (bp : Reservation)
    (hc : code ≠ "")
    (hfind : db.bookings.find? (cancelLookupMatch env code) = some bp)
    (helig : hoursSince env bp.createdAt ≤ 24)
    (hrefund : env.refundCall = none) :
    cancelByCode env db code = ⟨.error .refundFailed, db, true, false, false⟩ := by
  have hnc := cancelLookup_not_cancelled (List.find?_some hfind)
  simp [cancelByCode, hc, hfind, hnc, helig, hrefund]

lemma cancelByCode_refund_email_failure (env : CancelEnv) (db : Db) (code : String)
    (bp : Reservation) (rid : String)
    (hc : code ≠ "")
    (hfind : db.bookings.find? (cancelLookupMatch env code) = some bp)
    (helig : hoursSince env bp.createdAt ≤ 24)
    (hrefund : env.refundCall = some rid)
    (hmail : env.refundEmailDelivers = false) :
    cancelByCode env db code = ⟨.error .refundFailed, db, true, true, false⟩ := by
  have hnc := cancelLookup_not_cancelled (List.find?_some hfind)
  simp [cancelByCode, hc, hfind, hnc, helig, hrefund, hmail]

lemma cancelByCode_refund_success (env : CancelEnv) (db : Db) (code : String)
    (bp : Reservation) (rid : String)
    (hc : code ≠ "")
    (hfind : db.bookings.find? (cancelLookupMatch env code) = some bp)
    (helig : hoursSince env bp.createdAt ≤ 24)
    (hrefund : env.refundCall = some rid)
    (hmail : env.refundEmailDelivers = true) :
    cancelByCode env db code = persistCancellation env db bp
      { bp with
        payment := { bp.payment with isRefunded := true, refundId := some rid }
        paymentStatus := "Refunded" } true true := by
  have hnc := cancelLookup_not_cancelled (List.find?_some hfind)
  simp [cancelByCode, hc, hfind, hnc, helig, hrefund, hmail]

lemma cancelByCode_no_refund (env : CancelEnv) (db : Db) (code : String)
    (bp : Reservation)
    (hc : code ≠ "")
    (hfind : db.bookings.find? (cancelLookupMatch env code) = some bp)
    (helig : ¬ hoursSince env bp.createdAt ≤ 24) :
    cancelByCode env db code = persistCancellation env db bp
      { bp with
        payment := { bp.payment with
          failureReason := some "Cancellation after 24h, no refund available" } }
      false false := by
  have hnc := cancelLookup_not_cancelled (List.find?_some hfind)
  simp [cancelByCode, hc, hfind, hnc, helig]

/-! ## C4–C7 — the cancel handler

Shared fixture: user `u1` holds the paid, Confirmed reservation `BLSC` on
vehicle `v1`, created at instant `0`. -/

def c4Booking : Reservation :=
  { user := "u1"
    vehicle := "v1"
    origin := "A"
    destination := "B"
    startDate := 100
    endDate := some 400
    isRoundTrip := false
    totalPrice := 250
    bookingCode := "BLSC"
    bookingType := "scheduled"
    payment :=
      { provider := "razorpay"
        providerPaymentId := "pay_c"
        orderId := "order_c"
        amount := 250
        currency := "INR"
        status := "paid"
        bookedByName := "User One"
        isRefunded := false
        refundId := none
        failureReason := none }
    paymentStatus := "Paid"
    status := "Confirmed"
    bookingStatus := "Confirmed"
    createdAt := 0 }

/-- One hour after creation (refund-eligible); the provider refund call
throws. -/
def c4Env : CancelEnv :=
  { reqUser := ⟨"u1", "User One", "u1@x"⟩
    now := 3600000
    refundCall := none
    refundEmailDelivers := true
    cancelEmailDelivers := true }

def c4Db : Db := ⟨[c1Vehicle], [c4Booking]⟩

/-- **C4 counterexample.** The claim asserts that on a refund-API failure
"the failure reason is persisted". In the code the refund catch block
returns the 500 immediately without any `save` (`paymentRoutes.js` lines
555–558), so nothing is persisted: at the fixture the call fails hard and
the store — including the absent `payment.failureReason` — is exactly as
before. -/
theorem cancel_refund_failure_reason_not_persisted :
    (cancelByCode c4Env c4Db "BLSC").outcome = .error .refundFailed ∧
    (cancelByCode c4Env c4Db "BLSC").db = c4Db ∧
    failureReasonRecorded (cancelByCode c4Env c4Db "BLSC").db "BLSC" = false := by
  have hfind : c4Db.bookings.find? (cancelLookupMatch c4Env "BLSC") =
      some c4Booking := by decide
  have helig : hoursSince c4Env c4Booking.createdAt ≤ 24 := by
    norm_num [hoursSince, c4Env, c4Booking]
  have h := cancelByCode_refund_api_failure c4Env c4Db "BLSC" c4Booking
    (by decide) hfind helig rfl
  rw [h]
  exact ⟨rfl, rfl, by decide⟩

/-- **C4 (amended).** If the provider refund call fails during
`cancelByCode` of a refund-eligible (≤ 24h) reservation, a hard
`Refund failed` error is returned and the booking is NOT cancelled: the
store is returned unchanged, so `bookingStatus` remains un-Cancelled and
the vehicle's availability flags and booking pointers are untouched — and,
contrary to the original claim, no failure reason is persisted either
(the handler returns without saving). -/
theorem cancel_refund_api_failure_blocks_cancellation
    (env : CancelEnv) (db : Db) (code : String) (bp : Reservation)
    (hc : code ≠ "")
    (hfind : db.bookings.find? (cancelLookupMatch env code) = some bp)
    (helig : hoursSince env bp.createdAt ≤ 24)
    (hrefund : env.refundCall = none) :
    (cancelByCode env db code).outcome = .error .refundFailed ∧
    (cancelByCode env db code).db = db ∧
    (cancelByCode env db code).refundAttempted = true ∧
    bookingStatusOf (cancelByCode env db code).db bp.bookingCode =
      bookingStatusOf db bp.bookingCode ∧
    failureReasonRecorded (cancelByCode env db code).db bp.bookingCode =
      failureReasonRecorded db bp.bookingCode := by
  have h := cancelByCode_refund_api_failure env db code bp hc hfind helig hrefund
  rw [h]
  exact ⟨rfl, rfl, rfl, rfl, rfl⟩

/-- Witness for `cancel_refund_api_failure_blocks_cancellation` at the
`BLSC` fixture. -/
theorem cancel_refund_api_failure_blocks_cancellation_witness :
    c4Db.bookings.find? (cancelLookupMatch c4Env "BLSC") = some c4Booking ∧
    hoursSince c4Env c4Booking.createdAt ≤ 24 ∧
    (cancelByCode c4Env c4Db "BLSC").outcome = .error .refundFailed ∧
    (cancelByCode c4Env c4Db "BLSC").db = c4Db := by
  have hfind : c4Db.bookings.find? (cancelLookupMatch c4Env "BLSC") =
      some c4Booking := by decide
  have helig : hoursSince c4Env c4Booking.createdAt ≤ 24 := by
    norm_num [hoursSince, c4Env, c4Booking]
  have h := cancel_refund_api_failure_blocks_cancellation c4Env c4Db "BLSC"
    c4Booking (by decide) hfind helig rfl
  exact ⟨hfind, helig, h.1, h.2.1⟩

/-- Same instant and booking as `c4Env`, but the provider refund succeeds
and every email delivers. -/
def c5EnvOk : CancelEnv :=
  { reqUser := ⟨"u1", "User One", "u1@x"⟩
    now := 3600000
    refundCall := some "rfnd_1"
    refundEmailDelivers := true
    cancelEmailDelivers := true }

/-- As `c5EnvOk`, except the refund-success email send throws. -/
def c5EnvFail : CancelEnv :=
  { reqUser := ⟨"u1", "User One", "u1@x"⟩
    now := 3600000
    refundCall := some "rfnd_1"
    refundEmailDelivers := false
    cancelEmailDelivers := true }

/-- **C5** (code bug). Notification failure is *not* always isolated from
the outcome: the refund-success email is sent inside the refund try block
(`paymentRoutes.js` lines 462–553), so when only that email send differs —
delivering in `c5EnvOk`, throwing in `c5EnvFail` — the very same
cancellation request commits the cancellation in one world and in the
other returns a hard `Refund failed` error with nothing persisted (the
row stays Confirmed) even though the provider refund has already been
executed. The confirmation and final-cancellation emails have their own
try/catch, but this one changes both the response and the persisted
state, contradicting the claim. -/
theorem cancel_refund_email_failure_changes_outcome :
    (cancelByCode c5EnvFail c4Db "BLSC").outcome = .error .refundFailed ∧
    (cancelByCode c5EnvFail c4Db "BLSC").db = c4Db ∧
    (cancelByCode c5EnvFail c4Db "BLSC").providerRefunded = true ∧
    bookingStatusOf (cancelByCode c5EnvFail c4Db "BLSC").db "BLSC" =
      some ("Confirmed", "Confirmed") ∧
    exceptIsOk (cancelByCode c5EnvOk c4Db "BLSC").outcome = true ∧
    bookingStatusOf (cancelByCode c5EnvOk c4Db "BLSC").db "BLSC" =
      some ("Cancelled", "Cancelled") := by
  have hfindF : c4Db.bookings.find? (cancelLookupMatch c5EnvFail "BLSC") =
      some c4Booking := by decide
  have hfindT : c4Db.bookings.find? (cancelLookupMatch c5EnvOk "BLSC") =
      some c4Booking := by decide
  have heligF : hoursSince c5EnvFail c4Booking.createdAt ≤ 24 := by
    norm_num [hoursSince, c5EnvFail, c4Booking]
  have heligT : hoursSince c5EnvOk c4Booking.createdAt ≤ 24 := by
    norm_num [hoursSince, c5EnvOk, c4Booking]
  have hF := cancelByCode_refund_email_failure c5EnvFail c4Db "BLSC" c4Booking
    "rfnd_1" (by decide) hfindF heligF rfl rfl
  have hT := cancelByCode_refund_success c5EnvOk c4Db "BLSC" c4Booking
    "rfnd_1" (by decide) hfindT heligT rfl rfl
  have hbk : (c4Db.bookings.find?
      (fun b => b.bookingCode = c4Booking.bookingCode)).isSome := by decide
  have hp := persistCancellation_db c5EnvOk c4Db c4Booking
    { c4Booking with
      payment := { c4Booking.payment with isRefunded := true, refundId := some "rfnd_1" }
      paymentStatus := "Refunded" } true true rfl hbk
  refine ⟨by rw [hF], by rw [hF], by rw [hF], by rw [hF]; decide, ?_, ?_⟩
  · rw [hT]
    simp [persistCancellation, exceptIsOk]
  · rw [hT]
    exact hp.1

/-- **C6** (confirmed). For a found cancellable reservation,
`cancelByCode` attempts a provider refund exactly when
`hoursSince(createdAt) ≤ 24`; when more time has elapsed, no
refund-provider call is made, the stored row's `paymentStatus` ends as
`"No Refund"`, and the cancellation still proceeds — the handler answers
success and the row's `bookingStatus`/`status` become `Cancelled`. -/
theorem cancel_refund_iff_within_24h
    (env : CancelEnv) (db : Db) (code : String) (bp : Reservation)
    (hc : code ≠ "")
    (hfind : db.bookings.find? (cancelLookupMatch env code) = some bp) :
    ((cancelByCode env db code).refundAttempted =
      decide (hoursSince env bp.createdAt ≤ 24)) ∧
    (¬ hoursSince env bp.createdAt ≤ 24 →
      (cancelByCode env db code).refundAttempted = false ∧
      (cancelByCode env db code).providerRefunded = false ∧
      exceptIsOk (cancelByCode env db code).outcome = true ∧
      paymentStatusOf (cancelByCode env db code).db bp.bookingCode =
        some "No Refund" ∧
      bookingStatusOf (cancelByCode env db code).db bp.bookingCode =
        some ("Cancelled", "Cancelled")) := by
  have hbk : (db.bookings.find? (fun b => b.bookingCode = bp.bookingCode)).isSome := by
    rw [List.find?_isSome]
    exact ⟨bp, List.mem_of_find?_eq_some hfind, by simp⟩
  constructor
  · by_cases helig : hoursSince env bp.createdAt ≤ 24
    · cases hr : env.refundCall with
      | none =>
        rw [cancelByCode_refund_api_failure env db code bp hc hfind helig hr]
        simp [helig]
      | some rid =>
        by_cases hmail : env.refundEmailDelivers
        · rw [cancelByCode_refund_success env db code bp rid hc hfind helig hr hmail]
          simp [persistCancellation, helig]
        · rw [cancelByCode_refund_email_failure env db code bp rid hc hfind helig hr
            (by simpa using hmail)]
          simp [helig]
    · rw [cancelByCode_no_refund env db code bp hc hfind helig]
      simp [persistCancellation, helig]
  · intro helig
    rw [cancelByCode_no_refund env db code bp hc hfind helig]
    have hp := persistCancellation_db env db bp
      { bp with
        payment := { bp.payment with
          failureReason := some "Cancellation after 24h, no refund available" } }
      false false rfl hbk
    refine ⟨by simp [persistCancellation], by simp [persistCancellation],
      by simp [persistCancellation, exceptIsOk], ?_, hp.1⟩
    have := hp.2.1
    simpa using this

/-- Scenario D: cancellation 30 hours after creation. -/
def c6Env : CancelEnv :=
  { reqUser := ⟨"u1", "User One", "u1@x"⟩
    now := 108000000
    refundCall := some "rfnd_unused"
    refundEmailDelivers := true
    cancelEmailDelivers := true }

/-- Witness for `cancel_refund_iff_within_24h` at the 30-hour fixture:
no refund is attempted, yet the cancellation succeeds with
`"No Refund"`. -/
theorem cancel_refund_iff_within_24h_witness :
    c4Db.bookings.find? (cancelLookupMatch c6Env "BLSC") = some c4Booking ∧
    ¬ hoursSince c6Env c4Booking.createdAt ≤ 24 ∧
    (cancelByCode c6Env c4Db "BLSC").refundAttempted = false ∧
    exceptIsOk (cancelByCode c6Env c4Db "BLSC").outcome = true ∧
    paymentStatusOf (cancelByCode c6Env c4Db "BLSC").db c4Booking.bookingCode =
      some "No Refund" := by
  have hfind : c4Db.bookings.find? (cancelLookupMatch c6Env "BLSC") =
      some c4Booking := by decide
  have helig : ¬ hoursSince c6Env c4Booking.createdAt ≤ 24 := by
    norm_num [hoursSince, c6Env, c4Booking]
  have h := (cancel_refund_iff_within_24h c6Env c4Db "BLSC" c4Booking
    (by decide) hfind).2 helig
  exact ⟨hfind, helig, h.1, h.2.2.1, h.2.2.2.1⟩

/-- **C7** (confirmed). After every successful `cancelByCode` — in the
refunded and the no-refund branch alike — the vehicle is released: every
stored vehicle with the reservation's vehicle id has
`available = isAvailable = true`, `isBooked = false` and cleared
`bookedBy`/`bookedByName` (and such a vehicle exists); and the stored
reservation's `bookingStatus` and `status` are both `Cancelled`. -/
theorem cancel_success_releases_vehicle
    (env : CancelEnv) (db : Db) (code : String) (bp : Reservation)
    (hc : code ≠ "")
    (hfind : db.bookings.find? (cancelLookupMatch env code) = some bp)
    (hveh : (db.vehicles.find? (fun v => v.vid = bp.vehicle)).isSome)
    (hok : exceptIsOk (cancelByCode env db code).outcome = true) :
    (∀ v ∈ (cancelByCode env db code).db.vehicles, v.vid = bp.vehicle →
      v.isAvailable = true ∧ v.available = true ∧ v.isBooked = false ∧
        v.bookedBy = none ∧ v.bookedByName = none) ∧
    (∃ v ∈ (cancelByCode env db code).db.vehicles, v.vid = bp.vehicle) ∧
    bookingStatusOf (cancelByCode env db code).db bp.bookingCode =
      some ("Cancelled", "Cancelled") := by
  have hbk : (db.bookings.find? (fun b => b.bookingCode = bp.bookingCode)).isSome := by
    rw [List.find?_isSome]
    exact ⟨bp, List.mem_of_find?_eq_some hfind, by simp⟩
  obtain ⟨w, hwmem, hwvid⟩ := List.find?_isSome.mp hveh
  have hwvid' : w.vid = bp.vehicle := by simpa using hwvid
  have main : ∀ bp1 : Reservation, bp1.bookingCode = bp.bookingCode →
      ∀ ri ra : Bool,
      (∀ v ∈ (persistCancellation env db bp bp1 ri ra).db.vehicles,
        v.vid = bp.vehicle →
        v.isAvailable = true ∧ v.available = true ∧ v.isBooked = false ∧
          v.bookedBy = none ∧ v.bookedByName = none) ∧
      (∃ v ∈ (persistCancellation env db bp bp1 ri ra).db.vehicles,
        v.vid = bp.vehicle) ∧
      bookingStatusOf (persistCancellation env db bp bp1 ri ra).db bp.bookingCode =
        some ("Cancelled", "Cancelled") := by
    intro bp1 hb1 ri ra
    have hp := persistCancellation_db env db bp bp1 ri ra hb1 hbk
    refine ⟨fun v hv hvid => ?_, ?_, hp.1⟩
    · have := hp.2.2 v hv hvid
      exact ⟨this.1, this.2.1, this.2.2.1, this.2.2.2.1, this.2.2.2.2.1⟩
    · refine ⟨releaseVehicle w, ?_, hwvid'⟩
      simp only [persistCancellation, hveh, if_true]
      exact List.mem_map.mpr ⟨w, hwmem, by simp [hwvid']⟩
  by_cases helig : hoursSince env bp.createdAt ≤ 24
  · cases hr : env.refundCall with
    | none =>
      rw [cancelByCode_refund_api_failure env db code bp hc hfind helig hr] at hok
      simp [exceptIsOk] at hok
    | some rid =>
      by_cases hmail : env.refundEmailDelivers
      · rw [cancelByCode_refund_success env db code bp rid hc hfind helig hr hmail]
        exact main
          { bp with
            payment := { bp.payment with isRefunded := true, refundId := some rid }
            paymentStatus := "Refunded" } rfl true true
      · rw [cancelByCode_refund_email_failure env db code bp rid hc hfind helig hr
          (by simpa using hmail)] at hok
        simp [exceptIsOk] at hok
  · rw [cancelByCode_no_refund env db code bp hc hfind helig]
    exact main
      { bp with
        payment := { bp.payment with
          failureReason := some "Cancellation after 24h, no refund available" } }
      rfl false false

/-- Witness for `cancel_success_releases_vehicle` at the refunded-branch
fixture. -/
theorem cancel_success_releases_vehicle_witness :
    c4Db.bookings.find? (cancelLookupMatch c5EnvOk "BLSC") = some c4Booking ∧
    (c4Db.vehicles.find? (fun v => v.vid = c4Booking.vehicle)).isSome ∧
    exceptIsOk (cancelByCode c5EnvOk c4Db "BLSC").outcome = true ∧
    bookingStatusOf (cancelByCode c5EnvOk c4Db "BLSC").db c4Booking.bookingCode =
      some ("Cancelled", "Cancelled") := by
  have hfind : c4Db.bookings.find? (cancelLookupMatch c5EnvOk "BLSC") =
      some c4Booking := by decide
  have hveh : (c4Db.vehicles.find? (fun v => v.vid = c4Booking.vehicle)).isSome := by
    decide
  have heligT : hoursSince c5EnvOk c4Booking.createdAt ≤ 24 := by
    norm_num [hoursSince, c5EnvOk, c4Booking]
  have hok : exceptIsOk (cancelByCode c5EnvOk c4Db "BLSC").outcome = true := by
    rw [cancelByCode_refund_success c5EnvOk c4Db "BLSC" c4Booking "rfnd_1"
      (by decide) hfind heligT rfl rfl]
    simp [persistCancellation, exceptIsOk]
  have h := cancel_success_releases_vehicle c5EnvOk c4Db "BLSC" c4Booking
    (by decide) hfind hveh hok
  exact ⟨hfind, hveh, hok, h.2.2⟩

/-! ## Helper lemmas for the create-order handlers -/

lemma finishCreateOrder_cases (env : CreateOrderEnv) (db : Db)
    (req : CreateOrderRequest) (ps pe : Option Time) (bt : String) :
    (∃ e, finishCreateOrder env db req ps pe bt = ⟨.error e, db, []⟩) ∨
    finishCreateOrder env db req ps pe bt =
      ⟨.ok ⟨env.newOrderId, round (req.amount * 100), env.freshBookingCode, bt⟩, db,
        [⟨env.newOrderId, ((round (req.amount * 100) : ℤ) : ℚ), "INR",
          env.freshBookingCode,
          ⟨req.vehicleId, env.reqUser.uid, jsTrim req.origin, jsTrim req.destination,
            ps, pe, req.isRoundTrip, bt, env.freshBookingCode⟩⟩]⟩ := by
  unfold finishCreateOrder
  split
  · exact .inl ⟨_, rfl⟩
  · split
    · exact .inl ⟨_, rfl⟩
    · split
      · exact .inl ⟨_, rfl⟩
      · exact .inr rfl

lemma createOrderPayment_cases (env : CreateOrderEnv) (db : Db)
    (req : CreateOrderRequest) :
    (∃ e, createOrderPayment env db req = ⟨.error e, db, []⟩) ∨
    ∃ ps pe bt,
      processDatesPayment env req.startDate req.endDate = .ok (ps, pe, bt) ∧
      createOrderPayment env db req = finishCreateOrder env db req ps pe bt := by
  unfold createOrderPayment
  split
  · exact .inl ⟨_, rfl⟩
  · split
    · exact .inl ⟨_, rfl⟩
    · split
      · exact .inl ⟨_, rfl⟩
      · split
        · exact .inl ⟨_, rfl⟩
        · next ps pe bt heq => exact .inr ⟨ps, pe, bt, heq, rfl⟩

lemma createOrderGoogle_cases (env : CreateOrderEnv) (db : Db)
    (req : CreateOrderRequest) :
    (∃ e, createOrderGoogle env db req = ⟨.error e, db, []⟩) ∨
    ∃ ps pe bt,
      processDatesGoogle env req.startDate req.endDate = .ok (ps, pe, bt) ∧
      createOrderGoogle env db req = finishCreateOrder env db req ps pe bt := by
  unfold createOrderGoogle
  split
  · exact .inl ⟨_, rfl⟩
  · split
    · exact .inl ⟨_, rfl⟩
    · split
      · exact .inl ⟨_, rfl⟩
      · split
        · exact .inl ⟨_, rfl⟩
        · next ps pe bt heq => exact .inr ⟨ps, pe, bt, heq, rfl⟩

/-! ## C8 — `create-order` opens a provider order, writes nothing -/

/-- **C8** (confirmed). Both `create-order` handlers never touch the
database: the Reservation Store (and the whole state) is returned
unchanged on every path. On success, exactly one Razorpay order is
opened: its id is the provider-assigned id that is also returned, its
receipt is the freshly generated booking code, and its metadata embeds
every booking parameter — vehicle id, caller's user id, trimmed origin
and destination, the processed window, the round-trip flag, the booking
type and the booking code; the response carries the provider order id,
the amount in paise (`Math.round(amount * 100)`), the booking code and
the booking type. -/
theorem createOrder_persists_no_reservation (env : CreateOrderEnv) (db : Db)
    (req : CreateOrderRequest) :
    (createOrderPayment env db req).db = db ∧
    (createOrderGoogle env db req).db = db ∧
    (∀ resp, (createOrderPayment env db req).outcome = .ok resp →
      ∃ ps pe,
        processDatesPayment env req.startDate req.endDate =
          .ok (ps, pe, resp.bookingType) ∧
        resp.orderId = env.newOrderId ∧
        resp.amountPaise = round (req.amount * 100) ∧
        resp.bookingCode = env.freshBookingCode ∧
        (createOrderPayment env db req).createdOrders =
          [⟨env.newOrderId, ((round (req.amount * 100) : ℤ) : ℚ), "INR",
            env.freshBookingCode,
            ⟨req.vehicleId, env.reqUser.uid, jsTrim req.origin, jsTrim req.destination,
              ps, pe, req.isRoundTrip, resp.bookingType, env.freshBookingCode⟩⟩]) ∧
    (∀ resp, (createOrderGoogle env db req).outcome = .ok resp →
      ∃ ps pe,
        processDatesGoogle env req.startDate req.endDate =
          .ok (ps, pe, resp.bookingType) ∧
        resp.orderId = env.newOrderId ∧
        resp.amountPaise = round (req.amount * 100) ∧
        resp.bookingCode = env.freshBookingCode ∧
        (createOrderGoogle env db req).createdOrders =
          [⟨env.newOrderId, ((round (req.amount * 100) : ℤ) : ℚ), "INR",
            env.freshBookingCode,
            ⟨req.vehicleId, env.reqUser.uid, jsTrim req.origin, jsTrim req.destination,
              ps, pe, req.isRoundTrip, resp.bookingType, env.freshBookingCode⟩⟩]) := by
  have hfin : ∀ ps pe bt, (finishCreateOrder env db req ps pe bt).db = db := by
    intro ps pe bt
    rcases finishCreateOrder_cases env db req ps pe bt with ⟨e, h⟩ | h <;> rw [h]
  refine ⟨?_, ?_, ?_, ?_⟩
  · rcases createOrderPayment_cases env db req with ⟨e, h⟩ | ⟨ps, pe, bt, _, h⟩ <;>
      rw [h]
    exact hfin ps pe bt
  · rcases createOrderGoogle_cases env db req with ⟨e, h⟩ | ⟨ps, pe, bt, _, h⟩ <;>
      rw [h]
    exact hfin ps pe bt
  · intro resp hok
    rcases createOrderPayment_cases env db req with ⟨e, h⟩ | ⟨ps, pe, bt, hdates, h⟩
    · rw [h] at hok
      simp at hok
    · rw [h] at hok ⊢
      rcases finishCreateOrder_cases env db req ps pe bt with ⟨e, hf⟩ | hf
      · rw [hf] at hok
        simp at hok
      · rw [hf] at hok ⊢
        simp only [Except.ok.injEq] at hok
        subst hok
        exact ⟨ps, pe, hdates, rfl, rfl, rfl, rfl⟩
  · intro resp hok
    rcases createOrderGoogle_cases env db req with ⟨e, h⟩ | ⟨ps, pe, bt, hdates, h⟩
    · rw [h] at hok
      simp at hok
    · rw [h] at hok ⊢
      rcases finishCreateOrder_cases env db req ps pe bt with ⟨e, hf⟩ | hf
      · rw [hf] at hok
        simp at hok
      · rw [hf] at hok ⊢
        simp only [Except.ok.injEq] at hok
        subst hok
        exact ⟨ps, pe, hdates, rfl, rfl, rfl, rfl⟩

/-- Scenario A fixture: an immediate booking on the available `v1`. -/
def c8Env : CreateOrderEnv :=
  { reqUser := ⟨"u1", "User One", "u1@x"⟩
    now := 1000
    parseDate := fun _ => none
    yearOf := fun _ => 2024
    isValidObjectId := fun _ => true
    freshBookingCode := "BLSX"
    newOrderId := "order9" }

def c8Req : CreateOrderRequest :=
  { vehicleId := "v1"
    amount := 250
    origin := "A"
    destination := "B"
    startDate := none
    endDate := none
    isRoundTrip := false }

def c8Db : Db := ⟨[c1Vehicle], []⟩

/-- Witness for `createOrder_persists_no_reservation`: the Scenario A
request succeeds as an immediate booking on both handlers and the store
is unchanged. -/
theorem createOrder_persists_no_reservation_witness :
    (createOrderPayment c8Env c8Db c8Req).outcome =
      .ok ⟨"order9", 25000, "BLSX", "immediate"⟩ ∧
    (createOrderPayment c8Env c8Db c8Req).db = c8Db ∧
    ∃ ps pe,
      processDatesPayment c8Env c8Req.startDate c8Req.endDate =
        .ok (ps, pe, "immediate") := by
  have hround : round ((250 : ℚ) * 100) = (25000 : ℤ) := by
    norm_num [round_eq]
  have hor : ¬(("A" : String) = "" ∨ ("B" : String) = "") := by decide
  have hok : (createOrderPayment c8Env c8Db c8Req).outcome =
      .ok ⟨"order9", 25000, "BLSX", "immediate"⟩ := by
    norm_num [createOrderPayment, finishCreateOrder, processDatesPayment,
      hasDateField, c8Env, c8Req, c8Db, c1Vehicle, List.find?, hround, hor]
  have h := createOrder_persists_no_reservation c8Env c8Db c8Req
  obtain ⟨ps, pe, hdates, _, _, _, _⟩ := h.2.2.1 _ hok
  exact ⟨hok, h.1, ps, pe, hdates⟩

/-! ## C10 — the scheduled-date limits exist only in `paymentRoutes.js` -/

/-- A world in which the string `"S"` parses to instant `7000000000`,
`"E"` to thirty minutes later, and every instant falls in year 2024. -/
def c10Env : CreateOrderEnv :=
  { reqUser := ⟨"u1", "User One", "u1@x"⟩
    now := 0
    parseDate := fun s =>
      if s = "S" then some 7000000000
      else if s = "E" then some 7001800000
      else if s = "E2" then some 7007200000
      else none
    yearOf := fun _ => 2024
    isValidObjectId := fun _ => true
    freshBookingCode := "BLSY"
    newOrderId := "orderG" }

def c10Req : CreateOrderRequest :=
  { vehicleId := "v1"
    amount := 250
    origin := "A"
    destination := "B"
    startDate := some "S"
    endDate := some "E"
    isRoundTrip := false }

def c10Db : Db := ⟨[c1Vehicle], []⟩

/-- **C10** (confirmed). In `paymentRoutes.js`, a scheduled request that
survives date processing necessarily has both dates parsed with year
≥ 2020, a start at least 5 minutes (300000 ms) after `now`, and a
duration between 1 and 720 hours; whenever date processing rejects, the
handler fails without opening any provider order. None of this exists in
`googleRoutes.js`: the same 30-minute window (`"S"`–`"E"`) that
`googleRoutes` accepts end-to-end is rejected by `paymentRoutes` as below
the 1-hour minimum, before any provider order is opened. -/
theorem paymentRoutes_extra_scheduled_constraints :
    (∀ (env : CreateOrderEnv) (sd ed : Option String) (ps pe : Option Time)
        (bt : String),
      hasDateField sd = true → hasDateField ed = true →
      processDatesPayment env sd ed = .ok (ps, pe, bt) →
      ∃ st en, env.parseDate (sd.getD "") = some st ∧
        env.parseDate (ed.getD "") = some en ∧
        ps = some st ∧ pe = some en ∧ bt = "scheduled" ∧
        2020 ≤ env.yearOf st ∧ 2020 ≤ env.yearOf en ∧
        env.now + 5 * 60 * 1000 ≤ st ∧
        1 ≤ ((en - st : ℤ) : ℚ) / (1000 * 60 * 60) ∧
        ((en - st : ℤ) : ℚ) / (1000 * 60 * 60) ≤ 720) ∧
    (∀ (env : CreateOrderEnv) (db : Db) (req : CreateOrderRequest)
        (e : CreateOrderError),
      processDatesPayment env req.startDate req.endDate = .error e →
      exceptIsOk (createOrderPayment env db req).outcome = false ∧
      (createOrderPayment env db req).createdOrders = []) ∧
    processDatesGoogle c10Env (some "S") (some "E") =
      .ok (some 7000000000, some 7001800000, "scheduled") ∧
    processDatesPayment c10Env (some "S") (some "E") =
      .error .durationTooShort ∧
    exceptIsOk (createOrderGoogle c10Env c10Db c10Req).outcome = true ∧
    exceptIsOk (createOrderPayment c10Env c10Db c10Req).outcome = false ∧
    (createOrderPayment c10Env c10Db c10Req).createdOrders = [] := by
  have parta : ∀ (env : CreateOrderEnv) (sd ed : Option String)
      (ps pe : Option Time) (bt : String),
      hasDateField sd = true → hasDateField ed = true →
      processDatesPayment env sd ed = .ok (ps, pe, bt) →
      ∃ st en, env.parseDate (sd.getD "") = some st ∧
        env.parseDate (ed.getD "") = some en ∧
        ps = some st ∧ pe = some en ∧ bt = "scheduled" ∧
        2020 ≤ env.yearOf st ∧ 2020 ≤ env.yearOf en ∧
        env.now + 5 * 60 * 1000 ≤ st ∧
        1 ≤ ((en - st : ℤ) : ℚ) / (1000 * 60 * 60) ∧
        ((en - st : ℤ) : ℚ) / (1000 * 60 * 60) ≤ 720 := by
    intro env sd ed ps pe bt hsd hed h
    rw [processDatesPayment, hsd, hed] at h
    simp at h
    split at h
    next st en heq1 heq2 =>
      refine ⟨st, en, heq1, heq2, ?_⟩
      split at h
      next hyear => simp at h
      next hyear =>
        split at h
        next hstart => simp at h
        next hstart =>
          split at h
          next hend => simp at h
          next hend =>
            split at h
            next hshort => simp at h
            next hshort =>
              split at h
              next hlong => simp at h
              next hlong =>
                simp only [Except.ok.injEq, Prod.mk.injEq] at h
                obtain ⟨hps', hpe', hbt⟩ := h
                subst hps'
                subst hpe'
                subst hbt
                rw [not_or] at hyear
                refine ⟨rfl, rfl, rfl, not_lt.mp hyear.1, not_lt.mp hyear.2,
                  ?_, ?_, ?_⟩
                · exact not_lt.mp hstart
                · have h1 := not_lt.mp hshort
                  push_cast
                  convert h1 using 2
                · have h1 := not_lt.mp hlong
                  push_cast
                  convert h1 using 2
    next x y hx =>
      simp at h
  have partb : ∀ (env : CreateOrderEnv) (db : Db) (req : CreateOrderRequest)
      (e : CreateOrderError),
      processDatesPayment env req.startDate req.endDate = .error e →
      exceptIsOk (createOrderPayment env db req).outcome = false ∧
      (createOrderPayment env db req).createdOrders = [] := by
    intro env db req e h
    rcases createOrderPayment_cases env db req with ⟨e', hc⟩ | ⟨ps, pe, bt, hok, hc⟩
    · rw [hc]
      exact ⟨rfl, rfl⟩
    · rw [h] at hok
      simp at hok
  have hgoogleDates : processDatesGoogle c10Env (some "S") (some "E") =
      .ok (some 7000000000, some 7001800000, "scheduled") := by
    decide
  have hpayDates : processDatesPayment c10Env (some "S") (some "E") =
      .error .durationTooShort := by
    have h1 : hasDateField (some "S") = true := by decide
    have h2 : hasDateField (some "E") = true := by decide
    have hne : ("E" : String) ≠ "S" := by decide
    rw [processDatesPayment, h1, h2]
    norm_num [c10Env, hne]
  have hgoogleOk : exceptIsOk (createOrderGoogle c10Env c10Db c10Req).outcome =
      true := by
    decide
  refine ⟨parta, partb, hgoogleDates, hpayDates, hgoogleOk, ?_, ?_⟩
  · exact (partb c10Env c10Db c10Req _ hpayDates).1
  · exact (partb c10Env c10Db c10Req _ hpayDates).2

/-- Witness for `paymentRoutes_extra_scheduled_constraints`: a 2-hour
window starting well in the future survives the strict date processing,
and the extracted bounds hold. -/
theorem paymentRoutes_extra_scheduled_constraints_witness :
    hasDateField (some "S") = true ∧
    hasDateField (some "E2") = true ∧
    processDatesPayment c10Env (some "S") (some "E2") =
      .ok (some 7000000000, some 7007200000, "scheduled") ∧
    ∃ st en, c10Env.parseDate ((some "S").getD "") = some st ∧
      c10Env.parseDate ((some "E2").getD "") = some en ∧
      (some 7000000000 : Option Time) = some st ∧
      (some 7007200000 : Option Time) = some en ∧
      ("scheduled" : String) = "scheduled" ∧
      2020 ≤ c10Env.yearOf st ∧ 2020 ≤ c10Env.yearOf en ∧
      c10Env.now + 5 * 60 * 1000 ≤ st ∧
      1 ≤ ((en - st : ℤ) : ℚ) / (1000 * 60 * 60) ∧
      ((en - st : ℤ) : ℚ) / (1000 * 60 * 60) ≤ 720 := by
  have h1 : hasDateField (some "S") = true := by decide
  have h2 : hasDateField (some "E2") = true := by decide
  have h3 : processDatesPayment c10Env (some "S") (some "E2") =
      .ok (some 7000000000, some 7007200000, "scheduled") := by
    have hne1 : ("E2" : String) ≠ "S" := by decide
    have hne2 : ("E2" : String) ≠ "E" := by decide
    rw [processDatesPayment, h1, h2]
    norm_num [c10Env, hne1, hne2]
  exact ⟨h1, h2, h3,
    paymentRoutes_extra_scheduled_constraints.1 c10Env (some "S") (some "E2")
      (some 7000000000) (some 7007200000) "scheduled" h1 h2 h3⟩

/-! ## C9 — the `distance-calculate` quote pipeline -/

lemma roundTo2_nonpos {x : ℚ} (hx : x ≤ 0) : roundTo2 x ≤ 0 := by
  have h1 : round (x * 100) ≤ 0 := by
    rw [round_eq]
    have h2 : x * 100 + 1 / 2 ≤ 1 / 2 := by nlinarith
    calc ⌊x * 100 + 1 / 2⌋ ≤ ⌊(1 / 2 : ℚ)⌋ := Int.floor_le_floor h2
    _ = 0 := by norm_num
  unfold roundTo2
  exact div_nonpos_iff.mpr (Or.inr ⟨by exact_mod_cast h1, by norm_num⟩)

lemma mem_quoteValid {d : ℚ} {vs : List QuoteVehicle} {q : QuotedVehicle}
    (hq : q ∈ quoteValid d vs) :
    ∃ p, q.totalPrice = some p ∧ 0 < p ∧ ∃ v ∈ vs, q = quoteOne d v := by
  unfold quoteValid at hq
  obtain ⟨hmem, hfilt⟩ := List.mem_filter.mp hq
  obtain ⟨v, hv, rfl⟩ := List.mem_map.mp hmem
  cases htp : (quoteOne d v).totalPrice with
  | none =>
    rw [htp] at hfilt
    simp at hfilt
  | some p =>
    rw [htp] at hfilt
    simp at hfilt
    exact ⟨p, rfl, hfilt, v, hv, rfl⟩

/-- **C9** (confirmed). For the quote pipeline of `distance-calculate`
run at a nonnegative distance `d`: every returned vehicle carries a rate
`r > 0` and the quoted price `round(d * r, 2)`, itself positive — so a
vehicle whose rate is not positive, or whose computed price is not
positive, never appears in the results (it is filtered out by a total
function, not an error); the returned list is sorted ascending by
computed price; it is a permutation of the filtered list; and any two
entries tied on price keep their pre-sort relative order (stable sort). -/
theorem distance_quote_pipeline_correct (d : ℚ) (vs : List QuoteVehicle)
    (hd : 0 ≤ d) :
    (∀ q ∈ quotePipeline d vs, ∃ r, q.pricePerKM = some r ∧ 0 < r ∧
      q.totalPrice = some (roundTo2 (d * r)) ∧ 0 < roundTo2 (d * r)) ∧
    (quotePipeline d vs).Sorted priceLE ∧
    (quotePipeline d vs).Perm (quoteValid d vs) ∧
    (∀ a b : QuotedVehicle, List.Sublist [a, b] (quoteValid d vs) →
      quoteKey a = quoteKey b →
      List.Sublist [a, b] (quotePipeline d vs)) := by
  refine ⟨?_, ?_, ?_, ?_⟩
  · intro q hq
    have hq' : q ∈ quoteValid d vs :=
      (List.perm_insertionSort priceLE (quoteValid d vs)).mem_iff.mp hq
    obtain ⟨p, hp, hpos, v, hv, rfl⟩ := mem_quoteValid hq'
    cases hr : v.pricePerKM with
    | none =>
      simp [quoteOne, hr] at hp
    | some r =>
      by_cases hr0 : r = 0
      · simp [quoteOne, hr, hr0] at hp
      · have hp' : (quoteOne d v).totalPrice = some (roundTo2 (d * r)) := by
          simp [quoteOne, hr, hr0]
        rw [hp'] at hp
        have hpr : p = roundTo2 (d * r) := (Option.some.inj hp).symm
        subst hpr
        refine ⟨r, by simp [quoteOne, hr], ?_, hp', hpos⟩
        by_contra hneg
        have hrle : r ≤ 0 := le_of_not_lt hneg
        have : roundTo2 (d * r) ≤ 0 :=
          roundTo2_nonpos (mul_nonpos_iff.mpr (Or.inl ⟨hd, hrle⟩))
        linarith
  · exact List.sorted_insertionSort priceLE (quoteValid d vs)
  · exact List.perm_insertionSort priceLE (quoteValid d vs)
  · intro a b hsub hkey
    exact List.pair_sublist_insertionSort (le_of_eq hkey) hsub

/-- A concrete quote run at distance 10 over six vehicles: a normal rate,
a missing rate, a zero rate, a negative rate, and a tied pair. -/
def c9Vehicles : List QuoteVehicle :=
  [⟨"a", some 10⟩, ⟨"b", none⟩, ⟨"c", some 0⟩, ⟨"d", some (-5)⟩,
    ⟨"e", some 2⟩, ⟨"f", some 2⟩]

/-- Witness for `distance_quote_pipeline_correct` at distance 10. -/
theorem distance_quote_pipeline_correct_witness :
    0 ≤ (10 : ℚ) ∧
    ((∀ q ∈ quotePipeline 10 c9Vehicles, ∃ r, q.pricePerKM = some r ∧ 0 < r ∧
      q.totalPrice = some (roundTo2 (10 * r)) ∧ 0 < roundTo2 (10 * r)) ∧
    (quotePipeline 10 c9Vehicles).Sorted priceLE ∧
    (quotePipeline 10 c9Vehicles).Perm (quoteValid 10 c9Vehicles) ∧
    (∀ a b : QuotedVehicle, List.Sublist [a, b] (quoteValid 10 c9Vehicles) →
      quoteKey a = quoteKey b →
      List.Sublist [a, b] (quotePipeline 10 c9Vehicles))) :=
  ⟨by norm_num, distance_quote_pipeline_correct 10 c9Vehicles (by norm_num)⟩

end RideInBls
